import Mathlib

/-!
Shallow embedding of the `hook` / `shutdown` repository (Go).

The repository holds three implementations of a callback registry:
* `src/hook.go`, first variant ("variant A", lines 19-129): `Registry` with a
  copying snapshot in `Run`; the registered list survives the run.
* `src/hook.go`, second variant ("variant B", lines 146-239): `Registry` whose
  `Run` takes the live slice as its snapshot and truncates the live list to
  length 0 (`r.funcs = r.funcs[:0]`) before dispatch.
* `src/shutdown.go`: `shutdowner` with `Shutdown`, a singleton `New`, a select
  loop racing the result channel against `ctx.Done()`, and no panic recovery.

Callbacks are black-box closures `func(context.Context) error`.  A callback's
observable behaviour during one run is what it does when invoked with the
shared context: return nil, return a non-nil error, or panic.  We embed a
callback by that behaviour (`Outcome`); distinct error values and panic
payloads are tagged by natural numbers.
-/

/-- Behaviour of one callback when invoked with the run's context:
return nil, return a non-nil error `e`, or panic with payload `m`. -/
inductive Outcome
  | ok : Outcome
  | fail : Nat → Outcome
  | panic : Nat → Outcome
deriving DecidableEq, Repr

/-- Whether an outcome is a panic. -/
def Outcome.isPanic : Outcome → Bool
  | .panic _ => true
  | _ => false

/-- A concrete non-nil Go error value as it can appear in a combined result:
an error returned by a callback (`user`), the error built by
`fmt.Errorf("hook function panic: %v", r)` from a recovered panic payload
(`panicMsg`), or a context cancellation error `ctx.Err()` (`ctxE`). -/
inductive BaseErr
  | user : Nat → BaseErr
  | panicMsg : Nat → BaseErr
  | ctxE : Nat → BaseErr
deriving DecidableEq, Repr

/-- The error value returned by `Run`/`Shutdown`: `nil`, the context's own
error returned verbatim (`return err` after `ctx.Err()`), or the result of
`errors.Join` over a non-empty list of collected non-nil errors. -/
inductive RunResult
  | nil : RunResult
  | ctxOnly : Nat → RunResult
  | joined : List BaseErr → RunResult
deriving DecidableEq, Repr

/-- How one call of the dispatcher ends: it returns a value, it blocks forever
(its wait never completes), or the whole process dies because a goroutine
panicked with no `recover` installed (Go terminates the program in that
case). -/
inductive DispatchOut
  | ret : RunResult → DispatchOut
  | blocked : DispatchOut
  | crashed : Nat → DispatchOut
deriving DecidableEq, Repr

/-- What one launched task does at its boundary: it finishes and sends at most
one non-nil error on the result channel, or it panics out of the goroutine
(no recovery installed). -/
inductive TaskRes
  | sent : Option BaseErr → TaskRes
  | panicked : Nat → TaskRes
deriving DecidableEq, Repr

/-- The error a finished task sent on the channel, if any. -/
def sentPayload : TaskRes → Option BaseErr
  | .sent e => e
  | .panicked _ => none

/-- Task boundary of `Registry.Run` (both hook.go variants, lines 94-105 and
212-222): `defer recover` converts a panic payload `m` into the error
"hook function panic: m"; a returned non-nil error `e` is sent as is; a nil
return sends nothing. -/
def hookTask : Outcome → TaskRes
  | .ok => .sent none
  | .fail e => .sent (some (.user e))
  | .panic m => .sent (some (.panicMsg m))

/-- Task boundary of `shutdowner.Shutdown` (shutdown.go lines 69-74): a
returned non-nil error is sent; there is no `recover`, so a panicking
callback's fault escapes the goroutine. -/
def shutdownTask : Outcome → TaskRes
  | .ok => .sent none
  | .fail e => .sent (some (.user e))
  | .panic m => .panicked m

/-- Errors of the failing callbacks of a run, in list order (the set M of the
spec's aggregation property). -/
def failures (l : List Outcome) : List Nat :=
  l.filterMap fun o => match o with | .fail e => some e | _ => none

/-- All errors the launched tasks send on the result channel, in launch
order, for a given task boundary. -/
def emitted (task : Outcome → TaskRes) (l : List Outcome) : List BaseErr :=
  l.filterMap fun o => sentPayload (task o)

/-- Payload of the first launched task whose boundary lets a panic escape;
`none` when every task converts or has no fault.  An escaped panic kills the
Go process. -/
def dispatchCrash (task : Outcome → TaskRes) (l : List Outcome) : Option Nat :=
  l.findSome? fun o => match task o with | .panicked m => some m | _ => none

/-- Model of `errors.Join` applied to the collected non-nil errors: nil when
there are none, otherwise one combined error holding exactly that list. -/
def joinResult (es : List BaseErr) : RunResult :=
  if es.isEmpty then .nil else .joined es

/-- An observable event at the coordinator of `Registry.Run`: one launched
task completed (carrying the error it sent, if any), or the context's
cancellation signal fired.  The order of events is the run's scheduling
nondeterminism. -/
inductive CEvent
  | task : Option BaseErr → CEvent
  | cancel : Nat → CEvent
deriving DecidableEq, Repr

/-- Number of task-completion events in an event trace. -/
def countTasks (events : List CEvent) : Nat :=
  events.countP fun ev => match ev with | .task _ => true | _ => false

/-- The errors carried by the task-completion events of a trace, in trace
order: the contents of the result channel when it is drained. -/
def taskErrors (events : List CEvent) : List BaseErr :=
  events.filterMap fun ev => match ev with | .task (some e) => some e | _ => none

/-- The launch sequence of `Registry.Run`, variant A (hook.go lines 78-106):
nothing is launched on the empty snapshot or when the context is already
cancelled; otherwise one task per snapshot entry is launched, iterating the
snapshot in reverse registration order. -/
def hookLaunched (snap : List Outcome) (ctx0 : Option Nat) : List Outcome :=
  if snap.isEmpty then []
  else match ctx0 with
    | some _ => []
    | none => snap.reverse

/-- Run of `Registry.Run`, variant A (hook.go lines 72-117), as a function of the
snapshot, the context's error at entry (`ctx0`), and the coordinator's event
trace.  Empty snapshot: return nil before looking at the context.  Context
already cancelled: return its error verbatim.  Otherwise launch all tasks,
`wg.Wait()` for every one of them (cancellation events are not selected on,
so a trace with fewer task completions than launched tasks means the wait
never finishes: `blocked`), then drain the channel and `errors.Join` the
collected errors.  An escaped task panic would kill the process
(`crashed`); variant A's recover makes that branch unreachable. -/
def hookRun (snap : List Outcome) (ctx0 : Option Nat) (events : List CEvent) :
    DispatchOut :=
  if snap.isEmpty then .ret .nil
  else match ctx0 with
    | some e => .ret (.ctxOnly e)
    | none =>
      match dispatchCrash hookTask (hookLaunched snap none) with
      | some m => .crashed m
      | none =>
        if countTasks events = (hookLaunched snap none).length then
          .ret (joinResult (taskErrors events))
        else .blocked

/-- The launch sequence of `Registry.Run`, variant B (hook.go lines 205-223).
The loop re-checks `ctx.Err()` before each launch; `cutoff = some (k, e)`
means the context first reports error `e` after `k` loop iterations have
completed, `cutoff = none` means it never fires during the loop.  A mid-loop
cancellation stops launching after the first `k` tasks. -/
def runBLaunched (snap : List Outcome) (ctx0 : Option Nat)
    (cutoff : Option (Nat × Nat)) : List Outcome :=
  if snap.isEmpty then []
  else match ctx0 with
    | some _ => []
    | none =>
      match cutoff with
      | none => snap.reverse
      | some (k, _) => if k < snap.length then snap.reverse.take k else snap.reverse

/-- The context error variant B's launch loop pushes onto the error channel
when it observes a mid-loop cancellation and breaks (hook.go lines 206-209). -/
def runBCtxErrs (snap : List Outcome) (ctx0 : Option Nat)
    (cutoff : Option (Nat × Nat)) : List BaseErr :=
  if snap.isEmpty then []
  else match ctx0 with
    | some _ => []
    | none =>
      match cutoff with
      | none => []
      | some (k, e) => if k < snap.length then [.ctxE e] else []

/-- Run of `Registry.Run`, variant B (hook.go lines 186-239).  Registry clearing is
the state effect modelled by `applyOp`; this is the returned value.  Same
empty/pre-cancelled short circuits as variant A, then the cutoff-limited
launch loop, a full `wg.Wait`, and `errors.Join` over the channel contents
(the mid-loop context error plus the task errors; channel order is
nondeterministic, theorems only use it up to permutation). -/
def runB (snap : List Outcome) (ctx0 : Option Nat) (cutoff : Option (Nat × Nat))
    (events : List CEvent) : DispatchOut :=
  if snap.isEmpty then .ret .nil
  else match ctx0 with
    | some e => .ret (.ctxOnly e)
    | none =>
      match dispatchCrash hookTask (runBLaunched snap none cutoff) with
      | some m => .crashed m
      | none =>
        if countTasks events = (runBLaunched snap none cutoff).length then
          .ret (joinResult (runBCtxErrs snap none cutoff ++ taskErrors events))
        else .blocked

/-- An observable event at `Shutdown`'s select loop (shutdown.go lines
83-95): a non-nil error arrives on the channel, the channel closes (all
tasks done and drained), or `ctx.Done()` fires. -/
inductive SEvent
  | err : BaseErr → SEvent
  | closed : SEvent
  | cancelled : Nat → SEvent
deriving DecidableEq, Repr

/-- The launch sequence of `shutdowner.Shutdown` (shutdown.go lines 58-75):
nothing on the empty list, otherwise every entry in reverse registration
order; there is no pre-launch context check. -/
def shutdownLaunched (funcs : List Outcome) : List Outcome :=
  if funcs.isEmpty then [] else funcs.reverse

/-- The select loop of `Shutdown` (shutdown.go lines 82-96), fed the event
trace.  Channel close: set `s.funcs = nil` and return `errors.Join` of the
collected errors.  Cancellation: return immediately, joining the errors
collected so far with `ctx.Err()`, leaving `s.funcs` untouched.  A trace
that ends before either terminator means the loop waits forever.  The second
component is the final value of `s.funcs`. -/
def shutdownLoop (funcs : List Outcome) :
    List SEvent → List BaseErr → DispatchOut × List Outcome
  | [], _ => (.blocked, funcs)
  | .err e :: rest, acc => shutdownLoop funcs rest (acc ++ [e])
  | .closed :: _, acc => (.ret (joinResult acc), [])
  | .cancelled e :: _, acc => (.ret (joinResult (acc ++ [.ctxE e])), funcs)

/-- Run of `shutdowner.Shutdown` (shutdown.go lines 54-97) as a function of the
registered list and the event trace; returns the dispatch outcome and the
final `s.funcs`.  Empty list: return nil at once.  A task panic escapes the
goroutine (no recover) and kills the process.  Otherwise the select loop
runs.  The mutex is held for the whole call, so no concurrent mutation
interleaves. -/
def shutdownRun (funcs : List Outcome) (sched : List SEvent) :
    DispatchOut × List Outcome :=
  if funcs.isEmpty then (.ret .nil, funcs)
  else match dispatchCrash shutdownTask (shutdownLaunched funcs) with
    | some m => (.crashed m, funcs)
    | none => shutdownLoop funcs sched []

/-!  Registry state model.  At the level of the list of registered callbacks
(callbacks tagged by `Nat`), the operations of both hook.go variants are pure
list operations; the lock makes each one atomic. -/

/-- The registered-callback list of a `Registry` (hook.go lines 19-22 and
146-149), callbacks tagged by natural numbers. -/
structure Registry where
  hooks : List Nat
deriving DecidableEq, Repr

/-- Constructor `New()` (hook.go lines 32-36): a fresh registry with an empty list. -/
def Registry.New : Registry := ⟨[]⟩

/-- Method `Len()` (hook.go lines 120-124): length of the list under the lock. -/
def Registry.Len (r : Registry) : Nat := r.hooks.length

/-- Method `IsEmpty()` (hook.go lines 127-129): literally `r.Len() == 0`. -/
def Registry.IsEmpty (r : Registry) : Bool := r.Len == 0

/-- Method `Add(funcs...)` (hook.go lines 48-52): append under the lock. -/
def Registry.Add (r : Registry) (fs : List Nat) : Registry := ⟨r.hooks ++ fs⟩

/-- Method `Clear()` (hook.go lines 56-60): `r.hooks = r.hooks[:0]`, so the list
becomes empty. -/
def Registry.Clear (_ : Registry) : Registry := ⟨[]⟩

/-- One registry operation of the public API over the registry's lifetime.
`runA` is variant A's `Run` (snapshot is a copy, list retained, lines
73-76); `runB` is variant B's `Run` (list truncated to length 0 at snapshot
time, lines 187-190). -/
inductive RegOp
  | add : List Nat → RegOp
  | clear : RegOp
  | runA : RegOp
  | runB : RegOp
deriving DecidableEq, Repr

/-- Effect of one operation on the registered list. -/
def applyOp (r : Registry) : RegOp → Registry
  | .add fs => r.Add fs
  | .clear => r.Clear
  | .runA => r
  | .runB => ⟨[]⟩

/-- The registry state after a sequence of operations starting from `New()`. -/
def applyOps (ops : List RegOp) : Registry := ops.foldl applyOp Registry.New

/-!  Go slice memory model, for the snapshot-aliasing question.  A slice is a
pointer to a backing array plus a length; the backing array's length is the
slice's capacity.  `make` allocates a fresh array, `append` writes in place
while length < capacity and reallocates otherwise, and `s[:0]` keeps the same
backing array.  Array cells hold `Option Nat` (a callback tag, or `none` for
a cell never written). -/

/-- The allocated backing arrays, indexed by allocation order. -/
structure Mem where
  arrays : List (List (Option Nat))
deriving DecidableEq, Repr

/-- A Go slice value: backing-array index and length. -/
structure Slice where
  arr : Nat
  len : Nat
deriving DecidableEq, Repr

/-- Store value `v` into cell `i` of backing array `a`. -/
def Mem.write (m : Mem) (a i : Nat) (v : Option Nat) : Mem :=
  ⟨m.arrays.set a ((m.arrays.getD a []).set i v)⟩

/-- Allocate a fresh backing array of capacity `c`; returns its index. -/
def Mem.alloc (m : Mem) (c : Nat) : Mem × Nat :=
  (⟨m.arrays ++ [List.replicate c none]⟩, m.arrays.length)

/-- Capacity of a slice: the length of its backing array. -/
def sliceCap (m : Mem) (s : Slice) : Nat := (m.arrays.getD s.arr []).length

/-- The elements of a slice: the first `len` cells of its backing array. -/
def sliceContents (m : Mem) (s : Slice) : List (Option Nat) :=
  (m.arrays.getD s.arr []).take s.len

/-- Write the values `vs` into backing array `a` starting at cell `i`
(the element copy of `copy` / of a growing `append`). -/
def copyInto (m : Mem) (a i : Nat) : List (Option Nat) → Mem
  | [] => m
  | v :: vs => copyInto (m.write a i v) a (i + 1) vs

/-- Go `append` of one element: write in place while `len < cap` (same
backing array), otherwise allocate a larger array, copy, and write there.
The exact growth size approximates Go's policy; only the in-place case
matters to the claims. -/
def append1 (p : Mem × Slice) (x : Nat) : Mem × Slice :=
  if p.2.len < sliceCap p.1 p.2 then
    (p.1.write p.2.arr p.2.len (some x), ⟨p.2.arr, p.2.len + 1⟩)
  else
    let nc := max (2 * sliceCap p.1 p.2) (p.2.len + 1)
    let q := p.1.alloc nc
    let m2 := copyInto q.1 q.2 0 (sliceContents p.1 p.2)
    (m2.write q.2 p.2.len (some x), ⟨q.2, p.2.len + 1⟩)

/-- Method `Add(funcs...)` at the slice level: repeated `append`. -/
def addSlice (m : Mem) (s : Slice) (fs : List Nat) : Mem × Slice :=
  fs.foldl append1 (m, s)

/-- Constructor `New()` at the slice level: `make([]HookFunc, 0, 10)` (hook.go lines
33-35 and 159-161). -/
def regNewSlice (m : Mem) : Mem × Slice :=
  let q := m.alloc 10
  (q.1, ⟨q.2, 0⟩)

/-- Variant A's snapshot step (hook.go lines 74-75):
`hooks := make([]HookFunc, len(r.hooks)); copy(hooks, r.hooks)` — a fresh
backing array holding the same elements. -/
def runASnapshot (m : Mem) (s : Slice) : Mem × Slice :=
  let q := m.alloc s.len
  (copyInto q.1 q.2 0 (sliceContents m s), ⟨q.2, s.len⟩)

/-- Variant B's snapshot step (hook.go lines 188-189):
`funcs := r.funcs; r.funcs = r.funcs[:0]` — the snapshot is the old slice
value (same backing array), the live list the same array truncated to
length 0. -/
def runBSnapshot (s : Slice) : Slice × Slice := (s, ⟨s.arr, 0⟩)

/-- Concrete run of the slice model: `New()` then `Add(f1)` (f1 tagged 1). -/
def c3reg1 : Mem × Slice := addSlice (regNewSlice ⟨[]⟩).1 (regNewSlice ⟨[]⟩).2 [1]

/-- Variant B's `Run` begins: snapshot aliases the live array, live slice is
truncated. -/
def c3snapB : Slice := (runBSnapshot c3reg1.2).1

/-- The live registry slice of variant B right after the snapshot step. -/
def c3liveB : Slice := (runBSnapshot c3reg1.2).2

/-- State after `Add(f2)` (f2 tagged 2) performed once variant B took its snapshot. -/
def c3afterAddB : Mem × Slice := addSlice c3reg1.1 c3liveB [2]

/-- Variant A's snapshot at the same pre-state (after `Add(f1)`). -/
def c3snapA : Mem × Slice := runASnapshot c3reg1.1 c3reg1.2

/-- State after `Add(f2)` on the variant A registry, after its copying snapshot. -/
def c3afterAddA : Mem × Slice := addSlice c3snapA.1 c3reg1.2 [2]

/-!  Instance identity of the constructors.  hook.go's `New` allocates a new
registry on every call; shutdown.go's `New` (lines 28-34) runs a `sync.Once`
and always returns the one process-wide instance.  Registries live in a heap
(`HookWorld`), a handle is a heap index; the shutdown world has only the
optional singleton state, every handle denotes it. -/

/-- Heap of hook registries: registry contents indexed by allocation order. -/
structure HookWorld where
  regs : List (List Nat)
deriving DecidableEq, Repr

/-- hook.go `New()`: allocate a fresh empty registry, return the new world
and the handle to the fresh instance. -/
def hookNew (w : HookWorld) : HookWorld × Nat :=
  (⟨w.regs ++ [[]]⟩, w.regs.length)

/-- hook.go `Add` through handle `r`. -/
def hookAdd (w : HookWorld) (r : Nat) (fs : List Nat) : HookWorld :=
  ⟨w.regs.set r ((w.regs.getD r []) ++ fs)⟩

/-- hook.go `Len()` through handle `r`. -/
def hookLen (w : HookWorld) (r : Nat) : Nat := (w.regs.getD r []).length

/-- State of the shutdown package: the singleton's list, `none` before the
first `New` constructs it. -/
structure ShutWorld where
  inst : Option (List Nat)
deriving DecidableEq, Repr

/-- shutdown.go `New()` (lines 28-34): `once.Do` constructs the singleton on
first call and every call returns that same instance, so the only state
effect is making the instance exist. -/
def shutdownNewW (w : ShutWorld) : ShutWorld := ⟨some (w.inst.getD [])⟩

/-- shutdown.go `Add` through any handle returned by `New` (they all denote
the singleton). -/
def shutdownAddW (w : ShutWorld) (fs : List Nat) : ShutWorld :=
  ⟨some (w.inst.getD [] ++ fs)⟩

/-- shutdown.go `Len()` through any handle returned by `New`. -/
def shutLenW (w : ShutWorld) : Nat := (w.inst.getD []).length

example : hookRun [] none [] = .ret .nil := by decide
example : hookRun [.fail 3] none [.task (some (.user 3))] =
    .ret (.joined [.user 3]) := by decide
example : hookRun [.fail 3] none [.cancel 9] = .blocked := by decide
example : shutdownRun [.fail 3] [.cancelled 7] =
    (.ret (.joined [.ctxE 7]), [.fail 3]) := by decide
example : shutdownRun [.panic 7] [.closed] = (.crashed 7, [.panic 7]) := by decide

/-!  Helper lemmas. -/

/-- Without panics, the errors the hook tasks send are exactly the failing
callbacks' errors, in order. -/
theorem emitted_hookTask_of_no_panic (l : List Outcome)
    (h : ∀ o ∈ l, o.isPanic = false) :
    emitted hookTask l = (failures l).map BaseErr.user := by
  induction l with
  | nil => rfl
  | cons o t ih =>
    have ho := h o (List.mem_cons_self o t)
    have ht := fun o ho => h o (List.mem_cons_of_mem _ ho)
    cases o <;> simp_all [emitted, failures, hookTask, sentPayload,
      List.filterMap_cons, Outcome.isPanic]

/-- Without panics, the errors the shutdown tasks send are exactly the
failing callbacks' errors, in order. -/
theorem emitted_shutdownTask_of_no_panic (l : List Outcome)
    (h : ∀ o ∈ l, o.isPanic = false) :
    emitted shutdownTask l = (failures l).map BaseErr.user := by
  induction l with
  | nil => rfl
  | cons o t ih =>
    have ho := h o (List.mem_cons_self o t)
    have ht := fun o ho => h o (List.mem_cons_of_mem _ ho)
    cases o <;> simp_all [emitted, failures, shutdownTask, sentPayload,
      List.filterMap_cons, Outcome.isPanic]

/-- The hook task boundary recovers every panic, so no launch list can crash
the hook dispatcher. -/
theorem dispatchCrash_hookTask (l : List Outcome) :
    dispatchCrash hookTask l = none := by
  induction l with
  | nil => rfl
  | cons o t ih => cases o <;> simpa [dispatchCrash, hookTask, List.findSome?_cons] using ih

/-- Without panics, the shutdown dispatcher does not crash either. -/
theorem dispatchCrash_shutdownTask_of_no_panic (l : List Outcome)
    (h : ∀ o ∈ l, o.isPanic = false) :
    dispatchCrash shutdownTask l = none := by
  induction l with
  | nil => rfl
  | cons o t ih =>
    have ho := h o (List.mem_cons_self o t)
    have ht := fun o ho => h o (List.mem_cons_of_mem _ ho)
    cases o <;> simp_all [dispatchCrash, shutdownTask, List.findSome?_cons, Outcome.isPanic]

/-- Feeding the select loop a block of error arrivals just accumulates them. -/
theorem shutdownLoop_map_err (funcs : List Outcome) (es : List BaseErr)
    (rest : List SEvent) (acc : List BaseErr) :
    shutdownLoop funcs (es.map SEvent.err ++ rest) acc =
      shutdownLoop funcs rest (acc ++ es) := by
  induction es generalizing acc with
  | nil => simp
  | cons e t ih => simp [shutdownLoop, ih, List.append_assoc]

/-- C1: over a snapshot of callbacks of which the subset M fails and the rest
succeed (no panics), a run of hook `Run` (variant A) or of `Shutdown` on the
completed-and-drained path returns nil when M is empty, and otherwise one
joined error whose underlying failures are, up to the nondeterministic
collection order, exactly the |M| errors of the failing callbacks —
regardless of launch order. -/
theorem aggregation_completeness
    (outs : List Outcome) (hnp : ∀ o ∈ outs, o.isPanic = false)
    (events : List CEvent)
    (hcnt : countTasks events = outs.length)
    (hperm : (taskErrors events).Perm (emitted hookTask outs.reverse))
    (pre : List BaseErr)
    (hpre : pre.Perm (emitted shutdownTask (shutdownLaunched outs))) :
    (failures outs = [] →
      hookRun outs none events = .ret .nil ∧
      (shutdownRun outs (pre.map SEvent.err ++ [SEvent.closed])).1 = .ret .nil) ∧
    (failures outs ≠ [] →
      ∃ es1 es2,
        hookRun outs none events = .ret (.joined es1) ∧
        (shutdownRun outs (pre.map SEvent.err ++ [SEvent.closed])).1 =
          .ret (.joined es2) ∧
        es1.Perm ((failures outs).map BaseErr.user) ∧
        es2.Perm ((failures outs).map BaseErr.user)) := by
  by_cases houts : outs = []
  · subst houts
    refine ⟨fun _ => ?_, fun hne => absurd rfl hne⟩
    have hpre0 : pre = [] := by
      simpa [shutdownLaunched, emitted, List.perm_nil] using hpre
    subst hpre0
    constructor
    · simp [hookRun]
    · simp [shutdownRun]
  · have hie : outs.isEmpty = false := List.isEmpty_eq_false.mpr houts
    have hrevnp : ∀ o ∈ outs.reverse, o.isPanic = false := by
      intro o ho; exact hnp o (List.mem_reverse.mp ho)
    have hemh : emitted hookTask outs.reverse =
        (failures outs.reverse).map BaseErr.user :=
      emitted_hookTask_of_no_panic _ hrevnp
    have hfrev : ((failures outs.reverse).map BaseErr.user).Perm
        ((failures outs).map BaseErr.user) := by
      unfold failures
      exact ((outs.reverse_perm).filterMap _).map _
    have h1 : (taskErrors events).Perm ((failures outs).map BaseErr.user) :=
      hperm.trans (hemh ▸ hfrev)
    have hsl : shutdownLaunched outs = outs.reverse := by
      simp [shutdownLaunched, hie]
    have hems : emitted shutdownTask outs.reverse =
        (failures outs.reverse).map BaseErr.user :=
      emitted_shutdownTask_of_no_panic _ hrevnp
    have h2 : pre.Perm ((failures outs).map BaseErr.user) := by
      rw [hsl, hems] at hpre
      exact hpre.trans hfrev
    have hhook : hookRun outs none events = .ret (joinResult (taskErrors events)) := by
      simp [hookRun, hie, hookLaunched, dispatchCrash_hookTask, hcnt]
    have hscrash : dispatchCrash shutdownTask (shutdownLaunched outs) = none := by
      rw [hsl]
      exact dispatchCrash_shutdownTask_of_no_panic _ hrevnp
    have hshut : (shutdownRun outs (pre.map SEvent.err ++ [SEvent.closed])).1 =
        .ret (joinResult pre) := by
      simp [shutdownRun, hie, hscrash, shutdownLoop_map_err, shutdownLoop]
    constructor
    · intro hfail
      rw [hfail] at h1 h2
      simp only [List.map_nil, List.perm_nil] at h1 h2
      subst h2
      rw [h1] at hhook
      refine ⟨?_, ?_⟩
      · simpa [joinResult] using hhook
      · simpa [joinResult] using hshut
    · intro hfail
      have hmne : (failures outs).map BaseErr.user ≠ [] := by
        simpa [List.map_eq_nil_iff] using hfail
      have hte : taskErrors events ≠ [] := by
        intro h0; rw [h0] at h1; exact hmne (List.perm_nil.mp h1.symm)
      have hpre' : pre ≠ [] := by
        intro h0; rw [h0] at h2
        exact hmne ((List.perm_nil.mp h2.symm))
      refine ⟨taskErrors events, pre, ?_, ?_, h1, h2⟩
      · rw [hhook]
        simp [joinResult, List.isEmpty_eq_false.mpr hte]
      · rw [hshut]
        simp [joinResult, List.isEmpty_eq_false.mpr hpre']

/-- Witness for C1: three callbacks of which two fail (errors 5 and 6), a
completion order different from the launch order; both dispatchers return
one joined error whose underlying failures are exactly those two errors. -/
theorem aggregation_completeness_witness :
    ∃ es1 es2,
      hookRun [Outcome.ok, Outcome.fail 5, Outcome.fail 6] none
          [CEvent.task (some (BaseErr.user 5)), CEvent.task none,
            CEvent.task (some (BaseErr.user 6))] = .ret (.joined es1) ∧
      (shutdownRun [Outcome.ok, Outcome.fail 5, Outcome.fail 6]
          ([BaseErr.user 6, BaseErr.user 5].map SEvent.err ++ [SEvent.closed])).1 =
        .ret (.joined es2) ∧
      es1.Perm ((failures [Outcome.ok, Outcome.fail 5, Outcome.fail 6]).map
        BaseErr.user) ∧
      es2.Perm ((failures [Outcome.ok, Outcome.fail 5, Outcome.fail 6]).map
        BaseErr.user) :=
  (aggregation_completeness [Outcome.ok, Outcome.fail 5, Outcome.fail 6]
    (by decide)
    [CEvent.task (some (BaseErr.user 5)), CEvent.task none,
      CEvent.task (some (BaseErr.user 6))]
    (by decide) (by decide) [BaseErr.user 6, BaseErr.user 5] (by decide)).2
    (by decide)

/-- C2 (amended): in `Registry.Run` (hook.go), the task boundary converts a
panic with payload `m` into exactly one sent failure
`hook function panic: m`; a task's sent result is a function of its own
callback alone (splitting the launch list shows a changed callback moves
only its own slot of the channel contents); no launch list can crash the
hook dispatcher; and with all tasks completed the dispatcher returns a
value.  `shutdowner.Shutdown` has no such recovery — see its
counterexample. -/
theorem panic_containment_amended :
    (∀ m, hookTask (Outcome.panic m) = TaskRes.sent (some (BaseErr.panicMsg m))) ∧
    (∀ (l1 l2 : List Outcome) (o : Outcome),
      emitted hookTask (l1 ++ o :: l2) =
        emitted hookTask l1 ++ (sentPayload (hookTask o)).toList ++
          emitted hookTask l2) ∧
    (∀ l : List Outcome, dispatchCrash hookTask l = none) ∧
    (∀ (snap : List Outcome) (events : List CEvent),
      countTasks events = (hookLaunched snap none).length →
      ∃ r, hookRun snap none events = DispatchOut.ret r) := by
  refine ⟨fun m => rfl, ?_, dispatchCrash_hookTask, ?_⟩
  · intro l1 l2 o
    cases o <;>
      simp [emitted, List.filterMap_append, List.filterMap_cons, hookTask,
        sentPayload]
  · intro snap events hcnt
    by_cases h : snap = []
    · subst h
      exact ⟨.nil, by simp [hookRun]⟩
    · refine ⟨joinResult (taskErrors events), ?_⟩
      simp [hookRun, List.isEmpty_eq_false.mpr h, dispatchCrash_hookTask, hcnt]

/-- Witness for C2's amended theorem: a run of two callbacks of which one
panics; the dispatcher returns a value. -/
theorem panic_containment_amended_witness :
    countTasks [CEvent.task (some (BaseErr.panicMsg 7)), CEvent.task none] =
      (hookLaunched [Outcome.ok, Outcome.panic 7] none).length ∧
    ∃ r, hookRun [Outcome.ok, Outcome.panic 7] none
        [CEvent.task (some (BaseErr.panicMsg 7)), CEvent.task none] =
      DispatchOut.ret r :=
  ⟨by decide,
    panic_containment_amended.2.2.2 [Outcome.ok, Outcome.panic 7]
      [CEvent.task (some (BaseErr.panicMsg 7)), CEvent.task none] (by decide)⟩

/-- Counterexample to C2 as stated: in `shutdowner.Shutdown` a callback that
panics with payload 7 is not caught at the task boundary (no `recover` is
installed), its fault is not converted into a recorded failure, and the
dispatcher does not complete normally — the unrecovered goroutine panic
kills the process. -/
theorem shutdown_panic_uncontained_cex :
    shutdownTask (Outcome.panic 7) = TaskRes.panicked 7 ∧
    shutdownRun [Outcome.panic 7] [SEvent.closed] =
      (DispatchOut.crashed 7, [Outcome.panic 7]) ∧
    DispatchOut.crashed 7 ≠
      DispatchOut.ret (RunResult.joined [BaseErr.panicMsg 7]) ∧
    DispatchOut.crashed 7 ≠ DispatchOut.ret RunResult.nil := by decide

/-- C3 evaluated at the failing input (code bug): registry of variant B with
one registered callback (tag 1); `Run` takes its snapshot
(`funcs := r.funcs; r.funcs = r.funcs[:0]`), then `Add` registers callback
2.  The `append` inside `Add` writes into the same backing array the
snapshot still points at, so the snapshot's contents silently change from
[1] to [2]: the run will execute callback 2 and never callback 1.  Variant
A's copying snapshot (`make` + `copy`) at the same pre-state is unaffected
by the same `Add`. -/
theorem runB_snapshot_alias_eval :
    sliceContents c3reg1.1 c3snapB = [some 1] ∧
    sliceContents c3afterAddB.1 c3snapB = [some 2] ∧
    ([some 2] : List (Option Nat)) ≠ [some 1] ∧
    sliceContents c3snapA.1 c3snapA.2 = [some 1] ∧
    sliceContents c3afterAddA.1 c3snapA.2 = [some 1] := by decide

/-- Counterexample to C4 as stated: a `Shutdown` over one registered callback
that takes the cancellation path returns the joined cancellation error but
leaves `s.funcs` untouched, so `Len()` afterwards is 1, not 0. -/
theorem shutdown_cancel_leaves_registry_cex :
    (shutdownRun [Outcome.fail 3] [SEvent.cancelled 7]).2 = [Outcome.fail 3] ∧
    (shutdownRun [Outcome.fail 3] [SEvent.cancelled 7]).2.length ≠ 0 ∧
    (shutdownRun [Outcome.fail 3] [SEvent.cancelled 7]).1 =
      DispatchOut.ret (RunResult.joined [BaseErr.ctxE 7]) := by decide

/-- C4 (amended): hook.go's clear-before-run variant empties the live list as
part of starting the run, so `Len()` is 0 right after the snapshot step;
`shutdowner.Shutdown` instead sets `s.funcs = nil` only when every task has
completed and the channel has drained (also on runs that collected
failures), while a `Shutdown` that returns through the cancellation path
leaves the list exactly as it was. -/
theorem clear_semantics_amended
    (r : Registry) (funcs : List Outcome)
    (hnp : ∀ o ∈ funcs, o.isPanic = false)
    (pre : List BaseErr) (e : Nat) (rest : List SEvent) :
    (applyOp r RegOp.runB).Len = 0 ∧
    (shutdownRun funcs (pre.map SEvent.err ++ [SEvent.closed])).2.length = 0 ∧
    (funcs ≠ [] →
      (shutdownRun funcs (pre.map SEvent.err ++ SEvent.cancelled e :: rest)).2 =
        funcs) := by
  refine ⟨rfl, ?_, ?_⟩
  · by_cases h : funcs = []
    · subst h
      simp [shutdownRun]
    · have hie := List.isEmpty_eq_false.mpr h
      have hcr : dispatchCrash shutdownTask (shutdownLaunched funcs) = none := by
        simp only [shutdownLaunched, hie, Bool.false_eq_true, if_false]
        exact dispatchCrash_shutdownTask_of_no_panic _
          (fun o ho => hnp o (List.mem_reverse.mp ho))
      simp [shutdownRun, hie, hcr, shutdownLoop_map_err, shutdownLoop]
  · intro h
    have hie := List.isEmpty_eq_false.mpr h
    have hcr : dispatchCrash shutdownTask (shutdownLaunched funcs) = none := by
      simp only [shutdownLaunched, hie, Bool.false_eq_true, if_false]
      exact dispatchCrash_shutdownTask_of_no_panic _
        (fun o ho => hnp o (List.mem_reverse.mp ho))
    simp [shutdownRun, hie, hcr, shutdownLoop_map_err, shutdownLoop]

/-- Witness for C4's amended theorem at a concrete registry, callback list
and schedules. -/
theorem clear_semantics_amended_witness :
    (applyOp ⟨[1, 2]⟩ RegOp.runB).Len = 0 ∧
    (shutdownRun [Outcome.fail 3]
      (([] : List BaseErr).map SEvent.err ++ [SEvent.closed])).2.length = 0 ∧
    (shutdownRun [Outcome.fail 3]
      (([] : List BaseErr).map SEvent.err ++ SEvent.cancelled 7 :: [])).2 =
      [Outcome.fail 3] :=
  ⟨(clear_semantics_amended ⟨[1, 2]⟩ [Outcome.fail 3] (by decide) [] 7 []).1,
    (clear_semantics_amended ⟨[1, 2]⟩ [Outcome.fail 3] (by decide) [] 7 []).2.1,
    (clear_semantics_amended ⟨[1, 2]⟩ [Outcome.fail 3] (by decide) [] 7 []).2.2
      (by decide)⟩

/-- C5 (amended): when the cancellation signal fires while launched tasks are
still outstanding, `shutdowner.Shutdown` returns at that point with the
failures collected so far joined with the cancellation error, and its result
does not depend on anything after the cancellation event (it does not wait);
hook `Run` (variant A) has no cancellation branch in its coordinator: while
any launched task is unfinished it stays blocked whatever events occur. -/
theorem cancel_early_return_amended
    (funcs : List Outcome) (hne : funcs ≠ [])
    (hnp : ∀ o ∈ funcs, o.isPanic = false)
    (pre : List BaseErr) (e : Nat) (rest : List SEvent)
    (snap : List Outcome) (events : List CEvent)
    (hcnt : countTasks events ≠ (hookLaunched snap none).length)
    (hsne : snap ≠ []) :
    (shutdownRun funcs (pre.map SEvent.err ++ SEvent.cancelled e :: rest)).1 =
      DispatchOut.ret (RunResult.joined (pre ++ [BaseErr.ctxE e])) ∧
    shutdownRun funcs (pre.map SEvent.err ++ SEvent.cancelled e :: rest) =
      shutdownRun funcs (pre.map SEvent.err ++ [SEvent.cancelled e]) ∧
    hookRun snap none events = DispatchOut.blocked := by
  have hie := List.isEmpty_eq_false.mpr hne
  have hcr : dispatchCrash shutdownTask (shutdownLaunched funcs) = none := by
    simp only [shutdownLaunched, hie, Bool.false_eq_true, if_false]
    exact dispatchCrash_shutdownTask_of_no_panic _
      (fun o ho => hnp o (List.mem_reverse.mp ho))
  refine ⟨?_, ?_, ?_⟩
  · simp [shutdownRun, hie, hcr, shutdownLoop_map_err, shutdownLoop, joinResult]
  · simp [shutdownRun, hie, hcr, shutdownLoop_map_err, shutdownLoop]
  · simp [hookRun, List.isEmpty_eq_false.mpr hsne, dispatchCrash_hookTask, hcnt]

/-- Witness for C5's amended theorem: one failure already collected, a late
event after the cancellation that the select loop never looks at, and a hook
run with one unfinished task that stays blocked. -/
theorem cancel_early_return_amended_witness :
    (shutdownRun [Outcome.fail 3]
      ([BaseErr.user 1].map SEvent.err ++ SEvent.cancelled 9 ::
        [SEvent.err (BaseErr.user 2)])).1 =
      DispatchOut.ret (RunResult.joined [BaseErr.user 1, BaseErr.ctxE 9]) ∧
    shutdownRun [Outcome.fail 3]
        ([BaseErr.user 1].map SEvent.err ++ SEvent.cancelled 9 ::
          [SEvent.err (BaseErr.user 2)]) =
      shutdownRun [Outcome.fail 3]
        ([BaseErr.user 1].map SEvent.err ++ [SEvent.cancelled 9]) ∧
    hookRun [Outcome.ok] none [] = DispatchOut.blocked :=
  cancel_early_return_amended [Outcome.fail 3] (by decide) (by decide)
    [BaseErr.user 1] 9 [SEvent.err (BaseErr.user 2)] [Outcome.ok] []
    (by decide) (by decide)

/-- Counterexample to C5 as stated: hook `Run` over one callback whose task
has not finished when the cancellation fires does not return — it stays in
`wg.Wait()` — instead of returning the cancellation error immediately; and
once the late task finally finishes, the returned combined error holds that
late failure and no cancellation error at all. -/
theorem hook_run_ignores_cancel_cex :
    hookRun [Outcome.fail 3] none [CEvent.cancel 9] = DispatchOut.blocked ∧
    DispatchOut.blocked ≠ DispatchOut.ret (RunResult.joined [BaseErr.ctxE 9]) ∧
    hookRun [Outcome.fail 3] none
        [CEvent.cancel 9, CEvent.task (some (BaseErr.user 3))] =
      DispatchOut.ret (RunResult.joined [BaseErr.user 3]) := by decide

/-- C6: with a non-empty snapshot and a context already cancelled with error
`e` at entry, both hook.go `Run` variants return exactly the context's own
error (not a joined value) and launch no callback. -/
theorem precancelled_short_circuit
    (snap : List Outcome) (hne : snap ≠ []) (e : Nat)
    (events : List CEvent) (cutoff : Option (Nat × Nat)) :
    hookRun snap (some e) events = DispatchOut.ret (RunResult.ctxOnly e) ∧
    hookLaunched snap (some e) = [] ∧
    runB snap (some e) cutoff events = DispatchOut.ret (RunResult.ctxOnly e) ∧
    runBLaunched snap (some e) cutoff = [] := by
  have hie := List.isEmpty_eq_false.mpr hne
  exact ⟨by simp [hookRun, hie], by simp [hookLaunched, hie],
    by simp [runB, hie], by simp [runBLaunched, hie]⟩

/-- Witness for C6 at a singleton snapshot and cancellation error 4. -/
theorem precancelled_short_circuit_witness :
    hookRun [Outcome.ok] (some 4) [] = DispatchOut.ret (RunResult.ctxOnly 4) ∧
    hookLaunched [Outcome.ok] (some 4) = [] ∧
    runB [Outcome.ok] (some 4) none [] = DispatchOut.ret (RunResult.ctxOnly 4) ∧
    runBLaunched [Outcome.ok] (some 4) none = [] :=
  precancelled_short_circuit [Outcome.ok] (by decide) 4 [] none

/-- C7: with an empty snapshot, every dispatcher returns nil immediately and
launches nothing, whatever the context's state (`ctx0` covers an already
cancelled context) and whatever the schedule. -/
theorem empty_snapshot_noop (ctx0 : Option Nat) (events : List CEvent)
    (cutoff : Option (Nat × Nat)) (sched : List SEvent) :
    hookRun [] ctx0 events = DispatchOut.ret RunResult.nil ∧
    hookLaunched [] ctx0 = [] ∧
    runB [] ctx0 cutoff events = DispatchOut.ret RunResult.nil ∧
    runBLaunched [] ctx0 cutoff = [] ∧
    shutdownRun [] sched = (DispatchOut.ret RunResult.nil, []) ∧
    shutdownLaunched [] = [] := by
  exact ⟨by simp [hookRun], by simp [hookLaunched], by simp [runB],
    by simp [runBLaunched], by simp [shutdownRun], rfl⟩

/-- C8: over a non-empty snapshot C1..Cn (and a context not already
cancelled, where the short circuit would launch nothing), hook `Run` and
`Shutdown` launch one task per callback and the launch order is exactly the
reverse of registration order: the task launched at position i is callback
C(n-i). -/
theorem launch_reverse_order (snap : List Outcome) (hne : snap ≠ []) :
    hookLaunched snap none = snap.reverse ∧
    shutdownLaunched snap = snap.reverse ∧
    (hookLaunched snap none).length = snap.length ∧
    (shutdownLaunched snap).length = snap.length ∧
    ∀ i, i < snap.length →
      (hookLaunched snap none).getD i Outcome.ok =
        snap.getD (snap.length - 1 - i) Outcome.ok := by
  have hie := List.isEmpty_eq_false.mpr hne
  have h1 : hookLaunched snap none = snap.reverse := by simp [hookLaunched, hie]
  have h2 : shutdownLaunched snap = snap.reverse := by
    simp [shutdownLaunched, hie]
  refine ⟨h1, h2, by simp [h1], by simp [h2], ?_⟩
  intro i hi
  rw [h1, List.getD_eq_getElem?_getD, List.getD_eq_getElem?_getD,
    List.getElem?_reverse hi]

/-- Witness for C8: three callbacks; the first task launched is the last one
registered. -/
theorem launch_reverse_order_witness :
    hookLaunched [Outcome.fail 1, Outcome.fail 2, Outcome.fail 3] none =
      [Outcome.fail 3, Outcome.fail 2, Outcome.fail 1] ∧
    (hookLaunched [Outcome.fail 1, Outcome.fail 2, Outcome.fail 3] none).getD 0
        Outcome.ok =
      [Outcome.fail 1, Outcome.fail 2, Outcome.fail 3].getD 2 Outcome.ok :=
  ⟨(launch_reverse_order [Outcome.fail 1, Outcome.fail 2, Outcome.fail 3]
      (by decide)).1,
    (launch_reverse_order [Outcome.fail 1, Outcome.fail 2, Outcome.fail 3]
      (by decide)).2.2.2.2 0 (by decide)⟩

/-- C9 (amended): hook.go's `New()` returns a fresh, empty, independent
registry on every call — two calls give different instances, both of length
0, and `Add` through either handle leaves the other's `Len()` at 0 — while
shutdown.go's `New()` constructs a process-wide singleton once and returns
that same instance on every later call (calling it again changes nothing). -/
theorem new_instances_amended (fs : List Nat) (w : ShutWorld) :
    (hookNew ⟨[]⟩).2 ≠ (hookNew (hookNew ⟨[]⟩).1).2 ∧
    hookLen (hookNew ⟨[]⟩).1 (hookNew ⟨[]⟩).2 = 0 ∧
    hookLen (hookNew (hookNew ⟨[]⟩).1).1 (hookNew (hookNew ⟨[]⟩).1).2 = 0 ∧
    hookLen (hookAdd (hookNew (hookNew ⟨[]⟩).1).1 (hookNew ⟨[]⟩).2 fs)
      (hookNew (hookNew ⟨[]⟩).1).2 = 0 ∧
    hookLen (hookAdd (hookNew (hookNew ⟨[]⟩).1).1 (hookNew (hookNew ⟨[]⟩).1).2 fs)
      (hookNew ⟨[]⟩).2 = 0 ∧
    shutdownNewW (shutdownNewW w) = shutdownNewW w := by
  refine ⟨by decide, rfl, rfl, ?_, ?_, ?_⟩
  · simp [hookNew, hookAdd, hookLen]
  · simp [hookNew, hookAdd, hookLen]
  · cases w with
    | mk inst => cases inst <;> simp [shutdownNewW]

/-- Counterexample to C9 as stated: after `shutdown.New()` and an `Add` of
one callback, a second call to `shutdown.New()` returns the same singleton,
whose `Len()` is 1, not a fresh empty registry. -/
theorem shutdown_new_singleton_cex :
    shutLenW (shutdownNewW (shutdownAddW (shutdownNewW ⟨none⟩) [1])) = 1 ∧
    shutLenW (shutdownNewW (shutdownAddW (shutdownNewW ⟨none⟩) [1])) ≠ 0 := by
  decide

/-- C10: along any lifetime of a registry (any sequence of `Add`, `Clear` and
run operations applied to `New()`), `IsEmpty()` returns true exactly when
`Len()` returns 0. -/
theorem isEmpty_iff_len_zero (ops : List RegOp) :
    (applyOps ops).IsEmpty = true ↔ (applyOps ops).Len = 0 := by
  simp [Registry.IsEmpty]
